import Mathlib

/-!
# OBSBOT sample command loop

A shallow embedding of `libdev_v2.1.0_7/OBSBOT_Sample/main.cpp`: the device
serial list kept by `onDevChanged`, the command loop of `main`, and the
zone-track helpers.  The vendor SDK (`Devices`, `Device`) is closed source, so
its answers are inputs of the model and the calls made on it are recorded in
an event log, in program order.

Conventions of the embedding:

* `float` values are carried as rationals: the program only copies them, it
  never computes with them.  A decimal literal is carried as the rational it
  denotes (`1.6` is `mkRat 16 10`); rounding it to the machine type of an SDK
  field is left to the SDK.
* The accessors `productType()`, `devSn()`, `devName()`, `devVersion()`,
  `devMode()`, `devBleMac()`, ..., `cameraStatus()` read fields of the device
  handle and are not logged.  Every other member call on a device, and every
  call on the `Devices` singleton, is logged.
* `std::this_thread::sleep_for` is not modelled.
* The `_WIN32` block of command `p` is not compiled in.
-/

namespace ObsbotSample

/-! ## SDK data carried by the sample -/

/-- The `ObsbotProductType` enumerators that `main.cpp` names.  The enum is
declared in `dev/devs.hpp`; a value with no name in `main.cpp` is `unnamed`. -/
inductive ObsbotProductType
  | ObsbotProdTiny
  | ObsbotProdTiny4k
  | ObsbotProdMeet
  | ObsbotProdMeet4k
  | ObsbotProdMe
  | ObsbotProdTailAir
  | ObsbotProdTiny2
  | ObsbotProdHDMIBox
  | ObsbotProdButt
  | ObsbotProdTinySE
  | unnamed
  deriving DecidableEq, Repr

/-- The `Device::DevMode` values `main.cpp` tests for. -/
inductive DevMode
  | DevModeUvc
  | DevModeNet
  | unnamed
  deriving DecidableEq, Repr

/-- The `Device::` enumerators that `main.cpp` passes to SDK calls. -/
inductive DeviceEnum
  | DevStatusRun
  | AiWorkModeHuman
  | AiWorkModeNone
  | AiSubModeUpperBody
  | AiTrackHumanNormal
  | AiTrackGroup
  | AiTrackNormal
  | AiVTrackStandard
  | FovType86
  | MediaModeBackground
  | MediaBgModeReplace
  | DevWdrModeDol2TO1
  | DevWhiteBalanceAuto
  | DownloadImage0
  deriving DecidableEq, Repr

/-- The fields of `Device::PresetPosInfo` that `main.cpp` writes or prints.  A
field the program leaves unassigned is `none`. -/
structure PresetPosInfo where
  id : Int
  name : Option String := none
  name_len : Option Nat := none
  zoom : Option ℚ := none
  yaw : Option ℚ := none
  pitch : Option ℚ := none
  roll : Option ℚ := none
  roi_cx : Option ℚ := none
  roi_cy : Option ℚ := none
  roi_alpha : Option ℚ := none
  b_pitch : Option ℚ := none
  deriving DecidableEq

/-- The fields of `Device::AiGimbalStateInfo` that `main.cpp` reads. -/
structure AiGimbalStateInfo where
  yaw_motor : ℚ
  pitch_motor : ℚ
  roll_motor : ℚ
  deriving DecidableEq

/-- What the accessors of a `Device` handle return. -/
structure Device where
  devSn : String
  devName : String
  devVersion : String
  productType : ObsbotProductType
  devMode : DevMode
  devBleMac : String
  devWifiMode : String
  devWifiSsid : String
  devWiredIp : String
  devWirelessIp : String
  /-- The field `cameraStatus().tail_air.ai_type`. -/
  ai_type : Int
  deriving DecidableEq

/-- The `Devices` singleton as the sample sees it. -/
structure Sdk where
  /-- The call `Devices::get().getDevBySn(sn)`; `none` is a null handle. -/
  getDevBySn : String → Option Device
  /-- The call `Devices::get().getDevList()`. -/
  getDevList : List Device

/-- Member calls the sample makes on a device, with their arguments. -/
inductive SdkCall
  | setDevStatusCallbackFunc
  | enableDevStatusCallback (enabled : Bool)
  | setDevEventNotifyCallbackFunc
  | cameraSetDevRunStatusR (status : DeviceEnum)
  | aiSetGimbalMotorAngleR (a b c : ℚ)
  | aiSetGimbalSpeedCtrlR (a b c : ℚ)
  | aiSetGimbalBootPosR (info : PresetPosInfo)
  | aiTrgGimbalBootPosR
  | aiAddGimbalPresetR (info : PresetPosInfo)
  | aiTrgGimbalPresetR (id : Int)
  | aiSetTargetSelectR (flag : Bool)
  | cameraSetAiModeU (mode : DeviceEnum) (sub : Option DeviceEnum)
  | aiSetAiTrackModeEnabledR (mode : DeviceEnum) (enabled : Bool)
  | aiSetTrackingModeR (mode : DeviceEnum)
  | cameraSetZoomAbsoluteR (zoom : ℚ)
  | cameraSetZoomWithSpeedAbsoluteR (zoom speed : ℚ)
  | cameraSetFovU (fov : DeviceEnum)
  | cameraSetMediaModeU (mode : DeviceEnum)
  | cameraSetBgModeU (mode : DeviceEnum)
  | cameraSetWdrR (mode : DeviceEnum)
  | cameraSetFaceFocusR (flag : Bool)
  | cameraSetFocusAbsolute (value : ℚ) (flag : Bool)
  | cameraSetWhiteBalanceR (mode : DeviceEnum) (param : ℚ)
  | cameraSetTakePhotosR (a b : ℚ)
  | aiGetLimitedZoneTrackAutoSelectR
  | setLocalResourcePath (mini image : String) (kind : Nat)
  | setFileDownloadCallback
  | startFileDownloadAsync (kind : DeviceEnum)
  | cameraSetLedCtrlU (flag : Bool)
  | aiSetZoneTrackGimbalEnabledR (flag : Bool)
  | aiGetGimbalStateR
  | aiSetLimitedZoneTrackYawMinR (v : ℚ)
  | aiSetLimitedZoneTrackYawMaxR (v : ℚ)
  | aiSetLimitedZoneTrackPitchMinR (v : ℚ)
  | aiSetLimitedZoneTrackPitchMaxR (v : ℚ)
  | aiSetLimitedZoneTrackInitPosR (info : PresetPosInfo)
  | aiSetLimitedZoneTrackAutoSelectR (flag : Bool)
  | aiGetLimitedZoneTrackInitPosR (block : Bool)
  | aiGetLimitedZoneTrackYawMinR (block : Bool)
  | aiGetLimitedZoneTrackYawMaxR (block : Bool)
  | aiGetLimitedZoneTrackPitchMinR (block : Bool)
  | aiGetLimitedZoneTrackPitchMaxR (block : Bool)
  deriving DecidableEq

/-- What one run of the program does, in order. -/
inductive Event
  /-- Text written to `cout` and ended with `endl`. -/
  | line (text : String)
  /-- Text written to `cout` with no `endl`. -/
  | text (text : String)
  /-- A label and a `float` written to `cout`, ended with `endl`. -/
  | value (label : String) (v : ℚ)
  /-- The lookup `Devices::get().getDevBySn(sn)`. -/
  | getDevBySn (sn : String)
  /-- The lookup `Devices::get().getDevList()`. -/
  | getDevList
  /-- A member call on the device whose serial number is `sn`. -/
  | call (sn : String) (c : SdkCall)
  deriving DecidableEq

/-! ## `onDevChanged` -/

/-- The call `std::find(kDevs.begin(), kDevs.end(), dev_sn)` as an offset from
`begin()`: the position of the first entry equal to `dev_sn`, and
`kDevs.length` (that is `end()`) when there is none. -/
def find : List String → String → Nat
  | [], _ => 0
  | x :: xs, dev_sn => if x = dev_sn then 0 else find xs dev_sn + 1

/-- The callback `onDevChanged(dev_sn, in_out, param)`: the new serial list and
what is printed. -/
def onDevChanged (kDevs : List String) (dev_sn : String) (in_out : Bool) :
    List String × List Event :=
  let it := find kDevs dev_sn
  let kDevs1 :=
    if in_out then
      if it = kDevs.length then kDevs ++ [dev_sn] else kDevs
    else
      if it ≠ kDevs.length then kDevs.eraseIdx it else kDevs
  (kDevs1,
    [Event.line ("Device sn: " ++ dev_sn ++ (if in_out then " Connected" else " DisConnected")),
     Event.line ("Device num: " ++ toString kDevs1.length)])

/-! ## Zone tracking for TinySE -/

/-- Everything one pass of the command loop reads from outside the program:
the integer typed after `s` and the answers of the SDK getters. -/
structure Inputs where
  /-- The integer typed for `cin >> deviceIndex`. -/
  index : Int
  /-- Answer of the first `aiGetGimbalStateR` of `setZoneTrackInfoForTinySE`. -/
  state1 : AiGimbalStateInfo
  /-- Answer of the second `aiGetGimbalStateR` of `setZoneTrackInfoForTinySE`. -/
  state2 : AiGimbalStateInfo
  /-- Answer of `aiGetLimitedZoneTrackInitPosR`: the fields printed. -/
  init_yaw : ℚ
  init_pitch : ℚ
  init_zoom : ℚ
  curr_yaw_min : ℚ
  curr_yaw_max : ℚ
  curr_pitch_min : ℚ
  curr_pitch_max : ℚ
  /-- Answer of `aiGetLimitedZoneTrackAutoSelectR`. -/
  auto_select_target : Bool

/-- The function `getZoneTrackInfoForTinySE(dev_sn)`; `dev` is the global
selected handle.  `none` means a null handle was dereferenced. -/
def getZoneTrackInfoForTinySE (sdk : Sdk) (inp : Inputs) (dev : Option Device)
    (dev_sn : String) : Option (List Event) :=
  match sdk.getDevBySn dev_sn with
  | none => some [Event.getDevBySn dev_sn]
  | some tinySE =>
    let sn := tinySE.devSn
    let sync := true
    let reads : List Event :=
      if sync then
        [Event.call sn (SdkCall.aiGetLimitedZoneTrackInitPosR true),
         Event.line "zone track, init pos info: ",
         Event.value "yaw: " inp.init_yaw,
         Event.value "pitch: " inp.init_pitch,
         Event.value "zoom: " inp.init_zoom,
         Event.call sn (SdkCall.aiGetLimitedZoneTrackYawMinR true),
         Event.value "zone track range, yaw min: " inp.curr_yaw_min,
         Event.call sn (SdkCall.aiGetLimitedZoneTrackYawMaxR true),
         Event.value "zone track range, yaw max: " inp.curr_yaw_max,
         Event.call sn (SdkCall.aiGetLimitedZoneTrackPitchMinR true),
         Event.value "zone track range, pitch min: " inp.curr_pitch_min,
         Event.call sn (SdkCall.aiGetLimitedZoneTrackPitchMaxR true),
         Event.value "zone track range, pitch max: " inp.curr_pitch_max]
      else
        [Event.call sn (SdkCall.aiGetLimitedZoneTrackInitPosR false),
         Event.call sn (SdkCall.aiGetLimitedZoneTrackYawMinR false),
         Event.call sn (SdkCall.aiGetLimitedZoneTrackYawMaxR false),
         Event.call sn (SdkCall.aiGetLimitedZoneTrackPitchMinR false),
         Event.call sn (SdkCall.aiGetLimitedZoneTrackPitchMaxR false)]
    match dev with
    | none => none
    | some d =>
      some ([Event.getDevBySn dev_sn] ++ reads ++
        [Event.call d.devSn SdkCall.aiGetLimitedZoneTrackAutoSelectR,
         Event.line ("zone track auto select new target: " ++
           (if inp.auto_select_target then "1" else "0"))])

/-- The locals of `setZoneTrackInfoForTinySE` at the point where the range and
the init position are sent to the device. -/
structure ZoneTrackParams where
  yaw_min : ℚ
  yaw_max : ℚ
  pitch_min : ℚ
  pitch_max : ℚ
  init_pos : PresetPosInfo
  deriving DecidableEq

/-- The locals `yaw_min`, `yaw_max`, `pitch_min`, `pitch_max` and `init_pos`
of `setZoneTrackInfoForTinySE`, computed from the two gimbal states read. -/
def zoneTrackParams (state1 state2 : AiGimbalStateInfo) : ZoneTrackParams :=
  let yaw_min : ℚ := -110
  let yaw_max : ℚ := 110
  let pitch_min : ℚ := -45
  let pitch_max : ℚ := 45
  let get_pos_from_gimbal := true
  let yaw_min := if get_pos_from_gimbal then state1.yaw_motor else yaw_min
  let pitch_min := if get_pos_from_gimbal then state1.pitch_motor else pitch_min
  let init_pos : PresetPosInfo := { id := 0, b_pitch := some (-1000) }
  let init_pos : PresetPosInfo :=
    if get_pos_from_gimbal then
      { init_pos with
        yaw := some state2.yaw_motor
        pitch := some state2.pitch_motor
        roll := some state2.roll_motor }
    else init_pos
  { yaw_min := yaw_min, yaw_max := yaw_max, pitch_min := pitch_min, pitch_max := pitch_max
    init_pos := init_pos }

/-- The function `setZoneTrackInfoForTinySE(dev_sn)`; `dev` is the global
selected handle.  `none` means a null handle was dereferenced. -/
def setZoneTrackInfoForTinySE (sdk : Sdk) (inp : Inputs) (dev : Option Device)
    (dev_sn : String) : Option (List Event) :=
  match sdk.getDevBySn dev_sn with
  | none => some [Event.getDevBySn dev_sn]
  | some tinySE =>
    let sn := tinySE.devSn
    match dev with
    | none => none
    | some d =>
      let p := zoneTrackParams inp.state1 inp.state2
      some
        [Event.getDevBySn dev_sn,
         Event.call sn (SdkCall.cameraSetLedCtrlU true),
         Event.call sn (SdkCall.aiSetZoneTrackGimbalEnabledR false),
         Event.call d.devSn SdkCall.aiGetGimbalStateR,
         Event.call sn (SdkCall.aiSetLimitedZoneTrackYawMinR p.yaw_min),
         Event.call sn (SdkCall.aiSetLimitedZoneTrackYawMaxR p.yaw_max),
         Event.call sn (SdkCall.aiSetLimitedZoneTrackPitchMinR p.pitch_min),
         Event.call sn (SdkCall.aiSetLimitedZoneTrackPitchMaxR p.pitch_max),
         Event.call d.devSn SdkCall.aiGetGimbalStateR,
         Event.call sn (SdkCall.aiSetLimitedZoneTrackInitPosR p.init_pos),
         Event.call sn (SdkCall.aiSetLimitedZoneTrackAutoSelectR true),
         Event.call sn (SdkCall.aiSetZoneTrackGimbalEnabledR true),
         Event.call sn (SdkCall.cameraSetLedCtrlU false)]

/-! ## `atoi` -/

/-- The C `isspace` in the default locale. -/
def isspace (c : Char) : Bool :=
  c.toNat = 32 || (9 ≤ c.toNat && c.toNat ≤ 13)

/-- The C `isdigit`. -/
def isdigit (c : Char) : Bool :=
  48 ≤ c.toNat && c.toNat ≤ 57

/-- Value of the longest run of decimal digits at the head of the text,
continuing from `acc`. -/
def digits : List Char → Nat → Nat
  | [], acc => acc
  | c :: cs, acc => if isdigit c then digits cs (acc * 10 + (c.toNat - 48)) else acc

/-- The C `strtol(s, NULL, 10)` with a 64-bit `long`: leading white space, an
optional sign, then digits; the value saturates at `LONG_MIN`/`LONG_MAX`. -/
def strtol (s : List Char) : Int :=
  let s1 := s.dropWhile isspace
  match s1 with
  | [] => 0
  | c :: cs =>
    if c.toNat = 45 then max (-(2 : Int) ^ 63) (-(digits cs 0 : Int))
    else if c.toNat = 43 then min ((2 : Int) ^ 63 - 1) (digits cs 0)
    else min ((2 : Int) ^ 63 - 1) (digits s1 0)

/-- Conversion of a `long` to a 32-bit `int`. -/
def toInt32 (x : Int) : Int :=
  (x + 2 ^ 31) % 2 ^ 32 - 2 ^ 31

/-- The C library `atoi(cmd.c_str())`, which is `(int) strtol(s, NULL, 10)`
in glibc and in the BSD libc.  The C standard leaves the value undefined when
the number does not fit an `int`. -/
def atoi (cmd : String) : Int :=
  toInt32 (strtol cmd.toList)

/-! ## The command loop of `main` -/

/-- The globals `kDevs` and `dev`, and the local `deviceIndex` of `main`. -/
structure State where
  kDevs : List String
  dev : Option Device
  deviceIndex : Int
  deriving DecidableEq

/-- What one pass of the `while (cin >> cmd)` loop ends in. -/
inductive StepResult
  /-- The loop goes on in state `st`, having done `log`. -/
  | next (st : State) (log : List Event)
  /-- The call `exit(0)`. -/
  | quit
  /-- The behaviour is undefined in C++: `kDevs[deviceIndex]` was out of
  range, or a null handle was dereferenced. -/
  | undefined
  deriving DecidableEq

/-- The function `getProductNameByType`. -/
def getProductNameByType (type : ObsbotProductType) : String :=
  match type with
  | .ObsbotProdTiny => "Tiny"
  | .ObsbotProdTiny4k => "Tiny4K"
  | .ObsbotProdMeet => "Meet"
  | .ObsbotProdMeet4k => "Meet4K"
  | .ObsbotProdMe => "Me"
  | .ObsbotProdTailAir => "TailAir"
  | .ObsbotProdTiny2 => "Tiny2"
  | .ObsbotProdHDMIBox => "HDMIBox"
  | .ObsbotProdButt => "Butt"
  | _ => "UnKnown"

/-- The prompt printed at the end of every pass. -/
def prompt : Event :=
  Event.text "please input command('h' to get command info): "

/-- What command `h` prints. -/
def helpText : List Event :=
  [Event.line "==========================================",
   Event.line "q:             quit!",
   Event.line "p:             printf device info!",
   Event.line "s:             select device!",
   Event.line "1              set status callback!",
   Event.line "2              set event notify callback!",
   Event.line "3              wakeup or sleep!",
   Event.line "4              control the gimbal to move to the specified angle!",
   Event.line "5              control the gimbal to move by the specified speed!",
   Event.line
     "6              set the boot initial position and zoom ratio and move to the preset position!",
   Event.line "7              set the preset position and move to the preset positions!",
   Event.line "8              set ai mode!",
   Event.line "9              cancel ai mode!",
   Event.line "10             set ai tracking type!",
   Event.line "11             set the absolute zoom level!",
   Event.line "12             set the absolute zoom level and speed!",
   Event.line "13             set fov of the camera!",
   Event.line "14             set media mode!",
   Event.line "15             set hdr!",
   Event.line "16             set face focus!",
   Event.line "17             set the manual focus value!",
   Event.line "18             set the white balance!",
   Event.line "19             start or stop taking photos!",
   Event.line "21             download file!",
   Event.line "==========================================",
   prompt]

/-- The command numbers that `helpText` lists. -/
def listedCodes : List Int :=
  [1, 2, 3, 4, 5, 6, 7, 8, 9, 10, 11, 12, 13, 14, 15, 16, 17, 18, 19, 21]

/-- What command `p` prints for one entry of the device list. -/
def printDevice (item : Device) (index : Nat) : List Event :=
  [Event.line "---------------------------------------------------",
   Event.line ("Device SN: " ++ item.devSn),
   Event.line ("  index: " ++ toString index),
   Event.line ("  deviceName: " ++ item.devName),
   Event.line ("  deviceVersion: " ++ item.devVersion),
   Event.line ("  product: " ++ getProductNameByType item.productType)] ++
  (if item.productType = ObsbotProductType.ObsbotProdTailAir ∧
      item.devMode = DevMode.DevModeNet then
    [Event.line ("  deviceBluetoothMac: " ++ item.devBleMac),
     Event.line ("  deviceWifiMode: " ++ item.devWifiMode)] ++
    (if item.devWifiMode = "station" then
      [Event.line ("  deviceWifiSsid: " ++ item.devWifiSsid),
       Event.line ("  deviceWiredIp: " ++ item.devWiredIp),
       Event.line ("  deviceWirelessIp: " ++ item.devWirelessIp)]
    else [])
  else [])

/-- The loop of command `p` over the device list, `index` counting up. -/
def printDevices : List Device → Nat → List Event
  | [], _ => []
  | item :: rest, index => printDevice item index ++ printDevices rest (index + 1)

/-- The element `kDevs[deviceIndex]`; `none` when the index is out of range. -/
def vectorAt (kDevs : List String) (deviceIndex : Int) : Option String :=
  if 0 ≤ deviceIndex then kDevs[deviceIndex.toNat]? else none

/-- The extraction `cin >> deviceIndex` of a typed integer into an `int`: a
number that does not fit is stored as `INT_MIN` or `INT_MAX`. -/
def cinInt (typed : Int) : Int :=
  max (-(2 : Int) ^ 31) (min ((2 : Int) ^ 31 - 1) typed)

/-- The body of `case 8` (set ai mode) on the selected device. -/
def case8 (d : Device) : List Event :=
  if d.productType = ObsbotProductType.ObsbotProdTiny ∨
      d.productType = ObsbotProductType.ObsbotProdTiny4k then
    [Event.call d.devSn (SdkCall.aiSetTargetSelectR true)]
  else if d.productType = ObsbotProductType.ObsbotProdTiny2 then
    [Event.call d.devSn
      (SdkCall.cameraSetAiModeU DeviceEnum.AiWorkModeHuman (some DeviceEnum.AiSubModeUpperBody))]
  else if d.productType = ObsbotProductType.ObsbotProdTailAir then
    [Event.call d.devSn (SdkCall.aiSetAiTrackModeEnabledR DeviceEnum.AiTrackHumanNormal true)]
  else []

/-- The body of `case 9` (cancel ai mode) on the selected device. -/
def case9 (d : Device) : List Event :=
  if d.productType = ObsbotProductType.ObsbotProdTiny ∨
      d.productType = ObsbotProductType.ObsbotProdTiny4k then
    [Event.call d.devSn (SdkCall.aiSetTargetSelectR false)]
  else if d.productType = ObsbotProductType.ObsbotProdTiny2 then
    [Event.call d.devSn (SdkCall.cameraSetAiModeU DeviceEnum.AiWorkModeNone none)]
  else if d.productType = ObsbotProductType.ObsbotProdTailAir then
    let ai_type := d.ai_type
    if ai_type = 5 then
      [Event.call d.devSn (SdkCall.aiSetAiTrackModeEnabledR DeviceEnum.AiTrackGroup false)]
    else
      [Event.call d.devSn (SdkCall.aiSetAiTrackModeEnabledR DeviceEnum.AiTrackNormal false)]
  else []

/-- The local `BootPosPresetInfo` of `case 6`. -/
def BootPosPresetInfo : PresetPosInfo :=
  { id := 0
    name := some "BootPresetInfoZero"
    name_len := some "BootPresetInfoZero".length
    zoom := some (mkRat 14 10)
    yaw := some 45
    pitch := some 0
    roll := some 90
    roi_cx := some 2
    roi_cy := some 2
    roi_alpha := some 2 }

/-- The local `presetInfo` of `case 7`. -/
def presetInfo : PresetPosInfo :=
  { id := 0
    name := some "PresetInfoZero"
    name_len := some "PresetInfoZero".length
    zoom := some (mkRat 16 10)
    yaw := some 25
    pitch := some 45
    roll := some 60
    roi_cx := some 2
    roi_cy := some 2
    roi_alpha := some 2 }

/-- The statements of `case 7` itself.  The case has no `break`, so control
goes on into `case 8`. -/
def case7 (d : Device) : List Event :=
  [Event.call d.devSn (SdkCall.aiAddGimbalPresetR presetInfo),
   Event.call d.devSn (SdkCall.aiTrgGimbalPresetR presetInfo.id)]

/-- The loop of `case 22` and `case 23`: the first entry of the device list
whose product type is `ObsbotProdTinySE`. -/
def firstTinySE (dev_list : List Device) : Option Device :=
  dev_list.find? (fun item => item.productType = ObsbotProductType.ObsbotProdTinySE)

/-- The statement `switch (cmd_code)` of `main`, with `dev` the selected
handle.  `none` means a null handle was dereferenced. -/
def control (sdk : Sdk) (inp : Inputs) (dev : Option Device) (cmd_code : Int) :
    Option (List Event) :=
  if cmd_code = 1 then
    dev.map fun d =>
      [Event.call d.devSn SdkCall.setDevStatusCallbackFunc,
       Event.call d.devSn (SdkCall.enableDevStatusCallback true)]
  else if cmd_code = 2 then
    dev.map fun d =>
      if d.productType = ObsbotProductType.ObsbotProdTailAir then
        [Event.call d.devSn SdkCall.setDevEventNotifyCallbackFunc]
      else []
  else if cmd_code = 3 then
    dev.map fun d => [Event.call d.devSn (SdkCall.cameraSetDevRunStatusR DeviceEnum.DevStatusRun)]
  else if cmd_code = 4 then
    dev.map fun d =>
      if d.productType = ObsbotProductType.ObsbotProdTiny2 ∨
          d.productType = ObsbotProductType.ObsbotProdTailAir then
        [Event.call d.devSn (SdkCall.aiSetGimbalMotorAngleR 0 (-45) 90)]
      else []
  else if cmd_code = 5 then
    dev.map fun d =>
      [Event.call d.devSn (SdkCall.aiSetGimbalSpeedCtrlR (-45) 60 60),
       Event.call d.devSn (SdkCall.aiSetGimbalSpeedCtrlR 0 0 0)]
  else if cmd_code = 6 then
    dev.map fun d =>
      [Event.call d.devSn (SdkCall.aiSetGimbalBootPosR BootPosPresetInfo),
       Event.call d.devSn SdkCall.aiTrgGimbalBootPosR]
  else if cmd_code = 7 then
    dev.map fun d => case7 d ++ case8 d
  else if cmd_code = 8 then
    dev.map fun d => case8 d
  else if cmd_code = 9 then
    dev.map fun d => case9 d
  else if cmd_code = 10 then
    dev.map fun d => [Event.call d.devSn (SdkCall.aiSetTrackingModeR DeviceEnum.AiVTrackStandard)]
  else if cmd_code = 11 then
    dev.map fun d => [Event.call d.devSn (SdkCall.cameraSetZoomAbsoluteR (mkRat 15 10))]
  else if cmd_code = 12 then
    dev.map fun d => [Event.call d.devSn (SdkCall.cameraSetZoomWithSpeedAbsoluteR 150 6)]
  else if cmd_code = 13 then
    dev.map fun d => [Event.call d.devSn (SdkCall.cameraSetFovU DeviceEnum.FovType86)]
  else if cmd_code = 14 then
    dev.map fun d =>
      if d.productType = ObsbotProductType.ObsbotProdMeet ∨
          d.productType = ObsbotProductType.ObsbotProdMeet4k then
        [Event.call d.devSn (SdkCall.cameraSetMediaModeU DeviceEnum.MediaModeBackground),
         Event.call d.devSn (SdkCall.cameraSetBgModeU DeviceEnum.MediaBgModeReplace)]
      else []
  else if cmd_code = 15 then
    dev.map fun d => [Event.call d.devSn (SdkCall.cameraSetWdrR DeviceEnum.DevWdrModeDol2TO1)]
  else if cmd_code = 16 then
    dev.map fun d => [Event.call d.devSn (SdkCall.cameraSetFaceFocusR true)]
  else if cmd_code = 17 then
    dev.map fun d => [Event.call d.devSn (SdkCall.cameraSetFocusAbsolute 50 false)]
  else if cmd_code = 18 then
    dev.map fun d =>
      [Event.call d.devSn (SdkCall.cameraSetWhiteBalanceR DeviceEnum.DevWhiteBalanceAuto 100)]
  else if cmd_code = 19 then
    dev.map fun d =>
      if d.productType = ObsbotProductType.ObsbotProdTailAir then
        [Event.call d.devSn (SdkCall.cameraSetTakePhotosR 0 0)]
      else []
  else if cmd_code = 21 then
    dev.map fun d =>
      [Event.call d.devSn SdkCall.aiGetLimitedZoneTrackAutoSelectR] ++
      (if d.productType = ObsbotProductType.ObsbotProdMeet ∨
          d.productType = ObsbotProductType.ObsbotProdMeet4k ∨
          d.productType = ObsbotProductType.ObsbotProdTiny2 then
        [Event.call d.devSn (SdkCall.setLocalResourcePath "C:/obsbot/image" "C:/obsbot/image" 0),
         Event.call d.devSn SdkCall.setFileDownloadCallback,
         Event.call d.devSn (SdkCall.startFileDownloadAsync DeviceEnum.DownloadImage0)]
      else [])
  else if cmd_code = 22 then
    match firstTinySE sdk.getDevList with
    | none => some [Event.getDevList]
    | some item =>
      (getZoneTrackInfoForTinySE sdk inp dev item.devSn).map fun log => Event.getDevList :: log
  else if cmd_code = 23 then
    match firstTinySE sdk.getDevList with
    | none => some [Event.getDevList]
    | some item =>
      (setZoneTrackInfoForTinySE sdk inp dev item.devSn).map fun log => Event.getDevList :: log
  else
    some [Event.line "unknown command, please input 'h' to get command info"]

/-- One pass of the loop `while (cin >> cmd)` of `main`, on the token `cmd`. -/
def step (sdk : Sdk) (inp : Inputs) (st : State) (cmd : String) : StepResult :=
  if cmd = "h" then
    StepResult.next st helpText
  else if cmd = "q" then
    StepResult.quit
  else if st.kDevs.isEmpty then
    StepResult.next st [Event.line "No devices connected", prompt]
  else if cmd = "p" then
    StepResult.next st
      ([Event.line "Current connected devices:", Event.getDevList] ++
        printDevices sdk.getDevList 0 ++ [prompt])
  else
    match vectorAt st.kDevs st.deviceIndex with
    | none => StepResult.undefined
    | some sn =>
      let dev := sdk.getDevBySn sn
      if cmd = "s" then
        let deviceIndex := cinInt inp.index
        if deviceIndex < 0 ∨ deviceIndex ≥ st.kDevs.length then
          StepResult.next { kDevs := st.kDevs, dev := dev, deviceIndex := deviceIndex }
            [Event.getDevBySn sn,
             Event.text "Input the index of device:",
             Event.line ("Invalid device index, valid range: 0 ~ " ++
               toString ((st.kDevs.length + 2 ^ 64 - 1) % 2 ^ 64)),
             prompt]
        else
          match vectorAt st.kDevs deviceIndex with
          | none => StepResult.undefined
          | some sn1 =>
            match sdk.getDevBySn sn1 with
            | none => StepResult.undefined
            | some d =>
              StepResult.next { kDevs := st.kDevs, dev := some d, deviceIndex := deviceIndex }
                [Event.getDevBySn sn,
                 Event.text "Input the index of device:",
                 Event.getDevBySn sn1,
                 Event.line ("select the device: " ++ d.devName),
                 prompt]
      else
        let cmd_code := atoi cmd
        match control sdk inp dev cmd_code with
        | none => StepResult.undefined
        | some log =>
          StepResult.next { kDevs := st.kDevs, dev := dev, deviceIndex := st.deviceIndex }
            ([Event.getDevBySn sn] ++ log ++ [prompt])

/-! ## The Objective-C wrapper -/

/-- Modelled from the spec: the implementation of `OBSBOTWrapper`
(`moveGimbalWithYaw:pitch:roll:`) is not among the sources, only its
declaration in `OBSBOTWrapper.h` is.  The spec says that the wrapper holds a
selected device handle and that "moveGimbalWithYaw forwards yaw/pitch/roll to
aiSetGimbalMotorAngleR". -/
def moveGimbalWithYaw (selected : Device) (yaw pitch roll : ℚ) : List Event :=
  [Event.call selected.devSn (SdkCall.aiSetGimbalMotorAngleR yaw pitch roll)]

/-! ## Observations on a pass of the loop -/

/-- The events of a pass; a pass that quits or is undefined has none. -/
def StepResult.log : StepResult → List Event
  | StepResult.next _ log => log
  | StepResult.quit => []
  | StepResult.undefined => []

/-- The line the `default` label of the switch prints. -/
def unknownCommand : Event :=
  Event.line "unknown command, please input 'h' to get command info"

/-- Whether an event is a member call on a device. -/
def Event.isCall : Event → Bool
  | Event.call _ _ => true
  | _ => false

/-- The pass printed the unknown-command line and made no call on a device. -/
def rejected (r : StepResult) : Bool :=
  decide (unknownCommand ∈ r.log) && r.log.all fun e => !e.isCall

/-- The command numbers the switch has a `case` label for: those the help
lists, and 22 and 23. -/
def handledCodes : List Int :=
  listedCodes ++ [22, 23]

/-! ## Concrete devices for evaluation -/

/-- A device with serial number `SN0` and the given product type. -/
def sampleDevice (t : ObsbotProductType) : Device :=
  { devSn := "SN0", devName := "cam", devVersion := "1.0", productType := t,
    devMode := DevMode.DevModeUvc, devBleMac := "", devWifiMode := "", devWifiSsid := "",
    devWiredIp := "", devWirelessIp := "", ai_type := 0 }

/-- An SDK that knows the single device `sampleDevice t`. -/
def sampleSdk (t : ObsbotProductType) : Sdk :=
  { getDevBySn := fun sn => if sn = "SN0" then some (sampleDevice t) else none
    getDevList := [sampleDevice t] }

/-- Inputs: the integer typed after `s`, and the gimbal state that both reads
of `setZoneTrackInfoForTinySE` report. -/
def sampleInputs (index : Int) (g : AiGimbalStateInfo) : Inputs :=
  { index := index, state1 := g, state2 := g, init_yaw := 0, init_pitch := 0, init_zoom := 1,
    curr_yaw_min := 0, curr_yaw_max := 0, curr_pitch_min := 0, curr_pitch_max := 0,
    auto_select_target := false }

/-- One device connected, index 0 stored, the device selected. -/
def sampleState (t : ObsbotProductType) : State :=
  { kDevs := ["SN0"], dev := some (sampleDevice t), deviceIndex := 0 }

/-! ## Lemmas on `find` and the serial list -/

theorem find_le (L : List String) (s : String) : find L s ≤ L.length := by
  induction L with
  | nil => simp [find]
  | cons x xs ih =>
    simp only [find, List.length_cons]
    split <;> omega

theorem find_eq_length_iff (L : List String) (s : String) :
    find L s = L.length ↔ s ∉ L := by
  induction L with
  | nil => simp [find]
  | cons x xs ih =>
    simp only [find, List.length_cons, List.mem_cons, not_or]
    by_cases h : x = s
    · simp [h]
    · simp only [h, if_false, Nat.add_right_cancel_iff, ih]
      constructor
      · intro hs
        exact ⟨fun e => h e.symm, hs⟩
      · exact fun hs => hs.2

theorem eraseIdx_find (L : List String) (s : String) :
    L.eraseIdx (find L s) = L.erase s := by
  induction L with
  | nil => simp [find]
  | cons x xs ih =>
    by_cases h : x = s
    · subst h
      simp [find]
    · have hb : (x == s) = false := by simpa using h
      simp [find, h, List.erase_cons, hb, ih]

theorem filter_ne_erase (L : List String) (s : String) :
    (L.erase s).filter (fun x => decide (x ≠ s)) = L.filter (fun x => decide (x ≠ s)) := by
  induction L with
  | nil => simp
  | cons x xs ih =>
    by_cases h : x = s
    · subst h
      simp
    · have hb : (x == s) = false := by simpa using h
      rw [List.erase_cons, hb]
      simp only [Bool.false_eq_true, if_false, List.filter_cons, ih]

theorem onDevChanged_connected (L : List String) (s : String) :
    (onDevChanged L s true).1 = if s ∈ L then L else L ++ [s] := by
  by_cases h : s ∈ L
  · have hf : find L s ≠ L.length := fun e => (find_eq_length_iff L s).1 e h
    simp [onDevChanged, h, hf]
  · have hf : find L s = L.length := (find_eq_length_iff L s).2 h
    simp [onDevChanged, h, hf]

theorem onDevChanged_disconnected (L : List String) (s : String) :
    (onDevChanged L s false).1 = L.erase s := by
  by_cases h : s ∈ L
  · have hf : find L s ≠ L.length := fun e => (find_eq_length_iff L s).1 e h
    simp [onDevChanged, hf, eraseIdx_find]
  · have hf : find L s = L.length := (find_eq_length_iff L s).2 h
    simp [onDevChanged, hf, List.erase_of_not_mem h]

/-! ## The device list -/

/-- C3: on a duplicate-free serial list `L`, a connect event for `s` leaves `L`
unchanged when `s` is in it and otherwise appends `s` at the end, so `s` is in
the result; a disconnect event yields `L` with `s` erased, so `s` is not in
the result; either way the serials other than `s` are the same, in the same
order. -/
theorem onDevChanged_spec (L : List String) (s : String) (hL : L.Nodup) :
    (s ∈ L → (onDevChanged L s true).1 = L) ∧
    (s ∉ L → (onDevChanged L s true).1 = L ++ [s]) ∧
    s ∈ (onDevChanged L s true).1 ∧
    (onDevChanged L s false).1 = L.erase s ∧
    s ∉ (onDevChanged L s false).1 ∧
    ∀ in_out : Bool,
      (onDevChanged L s in_out).1.filter (fun x => decide (x ≠ s)) =
        L.filter (fun x => decide (x ≠ s)) := by
  refine ⟨?_, ?_, ?_, onDevChanged_disconnected L s, ?_, ?_⟩
  · intro h
    rw [onDevChanged_connected, if_pos h]
  · intro h
    rw [onDevChanged_connected, if_neg h]
  · rw [onDevChanged_connected]
    split
    · assumption
    · simp
  · rw [onDevChanged_disconnected]
    exact fun h => (hL.mem_erase_iff.1 h).1 rfl
  · intro in_out
    cases in_out
    · rw [onDevChanged_disconnected, filter_ne_erase]
    · rw [onDevChanged_connected]
      split
      · rfl
      · simp

/-- C3 at the list `["A", "B"]` and the serial `"B"`. -/
theorem onDevChanged_spec_witness :
    (["A", "B"] : List String).Nodup ∧
    (onDevChanged ["A", "B"] "B" true).1 = ["A", "B"] ∧
    (onDevChanged ["A", "B"] "B" false).1 = ["A"] :=
  ⟨by decide,
   (onDevChanged_spec ["A", "B"] "B" (by decide)).1 (by decide),
   (onDevChanged_spec ["A", "B"] "B" (by decide)).2.2.2.1⟩

/-! ## Lemmas on a pass of the loop -/

theorem vectorAt_isEmpty {kDevs : List String} {i : Int} {sn : String}
    (h : vectorAt kDevs i = some sn) : kDevs.isEmpty = false := by
  cases kDevs with
  | nil => simp [vectorAt] at h
  | cons x xs => rfl

/-- A pass on a token other than `h`, `q`, `p`, `s`, with a device behind the
stored index, looks the device up, runs the switch on it and prompts. -/
theorem step_control (sdk : Sdk) (inp : Inputs) (st : State) (cmd sn : String) (d : Device)
    (hh : cmd ≠ "h") (hq : cmd ≠ "q") (hp : cmd ≠ "p") (hs : cmd ≠ "s")
    (hsn : vectorAt st.kDevs st.deviceIndex = some sn) (hd : sdk.getDevBySn sn = some d) :
    step sdk inp st cmd =
      match control sdk inp (some d) (atoi cmd) with
      | none => StepResult.undefined
      | some log =>
        StepResult.next { kDevs := st.kDevs, dev := some d, deviceIndex := st.deviceIndex }
          ([Event.getDevBySn sn] ++ log ++ [prompt]) := by
  simp only [step, hh, hq, hp, hs, if_false, vectorAt_isEmpty hsn, hsn, hd, Bool.false_eq_true]

theorem rejected_next_iff (st : State) (sn : String) (log : List Event) :
    rejected (StepResult.next st ([Event.getDevBySn sn] ++ log ++ [prompt])) = true ↔
      unknownCommand ∈ log ∧ ∀ e ∈ log, e.isCall = false := by
  simp [rejected, StepResult.log, unknownCommand, prompt, Event.isCall]

theorem getZoneTrackInfoForTinySE_log (sdk : Sdk) (inp : Inputs) (d : Device) (dev_sn : String) :
    ∃ log, getZoneTrackInfoForTinySE sdk inp (some d) dev_sn = some log ∧
      unknownCommand ∉ log := by
  unfold getZoneTrackInfoForTinySE
  cases sdk.getDevBySn dev_sn with
  | none => exact ⟨_, rfl, by simp [unknownCommand]⟩
  | some tinySE =>
    refine ⟨_, rfl, ?_⟩
    cases inp.auto_select_target <;> simp [unknownCommand]

theorem setZoneTrackInfoForTinySE_log (sdk : Sdk) (inp : Inputs) (d : Device) (dev_sn : String) :
    ∃ log, setZoneTrackInfoForTinySE sdk inp (some d) dev_sn = some log ∧
      unknownCommand ∉ log := by
  unfold setZoneTrackInfoForTinySE
  cases sdk.getDevBySn dev_sn with
  | none => exact ⟨_, rfl, by simp [unknownCommand]⟩
  | some tinySE => exact ⟨_, rfl, by simp [unknownCommand]⟩

/-- For a listed command number the switch only makes calls on the device. -/
theorem control_listed (sdk : Sdk) (inp : Inputs) (d : Device) (c : Int)
    (hc : c ∈ listedCodes) :
    ∃ log, control sdk inp (some d) c = some log ∧ unknownCommand ∉ log := by
  simp only [listedCodes, List.mem_cons, List.mem_singleton, List.not_mem_nil, or_false] at hc
  rcases hc with rfl | rfl | rfl | rfl | rfl | rfl | rfl | rfl | rfl | rfl | rfl | rfl | rfl |
    rfl | rfl | rfl | rfl | rfl | rfl | rfl
  all_goals
    refine ⟨_, rfl, ?_⟩
    simp only [unknownCommand, case7, case8, case9]
    first
      | (split_ifs <;> simp)
      | simp

/-- For 22 and 23 the switch does not reach `default` either. -/
theorem control_zone (sdk : Sdk) (inp : Inputs) (d : Device) (c : Int)
    (hc : c = 22 ∨ c = 23) :
    ∃ log, control sdk inp (some d) c = some log ∧ unknownCommand ∉ log := by
  rcases hc with rfl | rfl
  · cases hf : firstTinySE sdk.getDevList with
    | none =>
      refine ⟨[Event.getDevList], ?_, by simp [unknownCommand]⟩
      simp [control, hf]
    | some item =>
      obtain ⟨log, hlog, hun⟩ := getZoneTrackInfoForTinySE_log sdk inp d item.devSn
      refine ⟨Event.getDevList :: log, ?_, ?_⟩
      · simp [control, hf, hlog]
      · simpa [unknownCommand] using hun
  · cases hf : firstTinySE sdk.getDevList with
    | none =>
      refine ⟨[Event.getDevList], ?_, by simp [unknownCommand]⟩
      simp [control, hf]
    | some item =>
      obtain ⟨log, hlog, hun⟩ := setZoneTrackInfoForTinySE_log sdk inp d item.devSn
      refine ⟨Event.getDevList :: log, ?_, ?_⟩
      · simp [control, hf, hlog]
      · simpa [unknownCommand] using hun

/-- Any other number reaches `default`. -/
theorem control_default (sdk : Sdk) (inp : Inputs) (dev : Option Device) (c : Int)
    (hc : c ∉ handledCodes) :
    control sdk inp dev c = some [unknownCommand] := by
  simp only [handledCodes, listedCodes, List.cons_append, List.nil_append, List.mem_cons,
    List.mem_singleton, List.not_mem_nil, or_false, not_or] at hc
  obtain ⟨h1, h2, h3, h4, h5, h6, h7, h8, h9, h10, h11, h12, h13, h14, h15, h16, h17, h18, h19,
    h21, h22, h23⟩ := hc
  unfold control
  rw [if_neg h1, if_neg h2, if_neg h3, if_neg h4, if_neg h5, if_neg h6, if_neg h7, if_neg h8,
    if_neg h9, if_neg h10, if_neg h11, if_neg h12, if_neg h13, if_neg h14, if_neg h15,
    if_neg h16, if_neg h17, if_neg h18, if_neg h19, if_neg h21, if_neg h22, if_neg h23]
  rfl

theorem control_rejects_iff (sdk : Sdk) (inp : Inputs) (d : Device) (c : Int) :
    ∃ log, control sdk inp (some d) c = some log ∧
      ((unknownCommand ∈ log ∧ ∀ e ∈ log, e.isCall = false) ↔ c ∉ handledCodes) := by
  by_cases hc : c ∈ handledCodes
  · have h : ∃ log, control sdk inp (some d) c = some log ∧ unknownCommand ∉ log := by
      simp only [handledCodes, List.mem_append, List.mem_cons, List.mem_singleton,
        List.not_mem_nil, or_false] at hc
      rcases hc with hc | hc
      · exact control_listed sdk inp d c hc
      · exact control_zone sdk inp d c hc
    obtain ⟨log, hlog, hun⟩ := h
    exact ⟨log, hlog, ⟨fun h => absurd h.1 hun, fun h => absurd hc h⟩⟩
  · refine ⟨_, control_default sdk inp (some d) c hc, ?_⟩
    simp [hc, unknownCommand, Event.isCall]

/-! ## The empty device list -/

/-- C6: while the device list is empty, a pass on any token other than `h` and
`q` prints `No devices connected` and the prompt, makes no SDK call, and leaves
the state (serial list, selected device, stored index) as it was. -/
theorem no_devices_connected (sdk : Sdk) (inp : Inputs) (st : State) (cmd : String)
    (hh : cmd ≠ "h") (hq : cmd ≠ "q") (hk : st.kDevs = []) :
    step sdk inp st cmd = StepResult.next st [Event.line "No devices connected", prompt] := by
  simp [step, hh, hq, hk]

/-- C6 at the token `7` with no device connected. -/
theorem no_devices_connected_witness :
    step (sampleSdk ObsbotProductType.ObsbotProdTiny) (sampleInputs 0 ⟨0, 0, 0⟩)
        { kDevs := [], dev := none, deviceIndex := 0 } "7" =
      StepResult.next { kDevs := [], dev := none, deviceIndex := 0 }
        [Event.line "No devices connected", prompt] :=
  no_devices_connected _ _ _ "7" (by decide) (by decide) rfl

/-! ## Product-restricted commands -/

/-- C5: with a device `d` behind the stored index, command `2` registers the
event-notify callback iff `d` is a TailAir, command `4` calls
`aiSetGimbalMotorAngleR` iff `d` is a Tiny2 or a TailAir, command `14` calls
`cameraSetMediaModeU` and `cameraSetBgModeU` iff `d` is a Meet or a Meet4k,
command `19` calls `cameraSetTakePhotosR` iff `d` is a TailAir; for any other
product type the pass makes no call on the device at all. -/
theorem product_restricted_commands (sdk : Sdk) (inp : Inputs) (st : State) (sn : String)
    (d : Device) (hsn : vectorAt st.kDevs st.deviceIndex = some sn)
    (hd : sdk.getDevBySn sn = some d) :
    step sdk inp st "2" =
      StepResult.next { kDevs := st.kDevs, dev := some d, deviceIndex := st.deviceIndex }
        ([Event.getDevBySn sn] ++
          (if d.productType = ObsbotProductType.ObsbotProdTailAir then
            [Event.call d.devSn SdkCall.setDevEventNotifyCallbackFunc]
          else []) ++ [prompt]) ∧
    step sdk inp st "4" =
      StepResult.next { kDevs := st.kDevs, dev := some d, deviceIndex := st.deviceIndex }
        ([Event.getDevBySn sn] ++
          (if d.productType = ObsbotProductType.ObsbotProdTiny2 ∨
              d.productType = ObsbotProductType.ObsbotProdTailAir then
            [Event.call d.devSn (SdkCall.aiSetGimbalMotorAngleR 0 (-45) 90)]
          else []) ++ [prompt]) ∧
    step sdk inp st "14" =
      StepResult.next { kDevs := st.kDevs, dev := some d, deviceIndex := st.deviceIndex }
        ([Event.getDevBySn sn] ++
          (if d.productType = ObsbotProductType.ObsbotProdMeet ∨
              d.productType = ObsbotProductType.ObsbotProdMeet4k then
            [Event.call d.devSn (SdkCall.cameraSetMediaModeU DeviceEnum.MediaModeBackground),
             Event.call d.devSn (SdkCall.cameraSetBgModeU DeviceEnum.MediaBgModeReplace)]
          else []) ++ [prompt]) ∧
    step sdk inp st "19" =
      StepResult.next { kDevs := st.kDevs, dev := some d, deviceIndex := st.deviceIndex }
        ([Event.getDevBySn sn] ++
          (if d.productType = ObsbotProductType.ObsbotProdTailAir then
            [Event.call d.devSn (SdkCall.cameraSetTakePhotosR 0 0)]
          else []) ++ [prompt]) := by
  have h2 : atoi "2" = 2 := by decide
  have h4 : atoi "4" = 4 := by decide
  have h14 : atoi "14" = 14 := by decide
  have h19 : atoi "19" = 19 := by decide
  refine ⟨?_, ?_, ?_, ?_⟩
  · rw [step_control sdk inp st "2" sn d (by decide) (by decide) (by decide) (by decide) hsn hd,
      h2]
    rfl
  · rw [step_control sdk inp st "4" sn d (by decide) (by decide) (by decide) (by decide) hsn hd,
      h4]
    rfl
  · rw [step_control sdk inp st "14" sn d (by decide) (by decide) (by decide) (by decide) hsn hd,
      h14]
    rfl
  · rw [step_control sdk inp st "19" sn d (by decide) (by decide) (by decide) (by decide) hsn hd,
      h19]
    rfl

/-- C5 for a Meet camera: commands `2`, `4` and `19` make no call on it, and
command `14` sets the media mode and the background mode. -/
theorem product_restricted_commands_witness :
    vectorAt (sampleState ObsbotProductType.ObsbotProdMeet).kDevs
        (sampleState ObsbotProductType.ObsbotProdMeet).deviceIndex = some "SN0" ∧
    (sampleSdk ObsbotProductType.ObsbotProdMeet).getDevBySn "SN0" =
        some (sampleDevice ObsbotProductType.ObsbotProdMeet) ∧
    step (sampleSdk ObsbotProductType.ObsbotProdMeet) (sampleInputs 0 ⟨0, 0, 0⟩)
        (sampleState ObsbotProductType.ObsbotProdMeet) "2" =
      StepResult.next (sampleState ObsbotProductType.ObsbotProdMeet)
        [Event.getDevBySn "SN0", prompt] ∧
    step (sampleSdk ObsbotProductType.ObsbotProdMeet) (sampleInputs 0 ⟨0, 0, 0⟩)
        (sampleState ObsbotProductType.ObsbotProdMeet) "14" =
      StepResult.next (sampleState ObsbotProductType.ObsbotProdMeet)
        [Event.getDevBySn "SN0",
         Event.call "SN0" (SdkCall.cameraSetMediaModeU DeviceEnum.MediaModeBackground),
         Event.call "SN0" (SdkCall.cameraSetBgModeU DeviceEnum.MediaBgModeReplace),
         prompt] :=
  ⟨rfl, rfl,
   (product_restricted_commands (sampleSdk ObsbotProductType.ObsbotProdMeet)
      (sampleInputs 0 ⟨0, 0, 0⟩) (sampleState ObsbotProductType.ObsbotProdMeet) "SN0"
      (sampleDevice ObsbotProductType.ObsbotProdMeet) rfl rfl).1,
   (product_restricted_commands (sampleSdk ObsbotProductType.ObsbotProdMeet)
      (sampleInputs 0 ⟨0, 0, 0⟩) (sampleState ObsbotProductType.ObsbotProdMeet) "SN0"
      (sampleDevice ObsbotProductType.ObsbotProdMeet) rfl rfl).2.2.1⟩

/-! ## Setting and cancelling the AI mode -/

/-- C7: with a device `d` behind the stored index, commands `8` and `9` each
make the calls `set` and `cancel` on it and nothing else, where: for Tiny and
Tiny4k both are one `aiSetTargetSelectR`, with `true` and `false`; for Tiny2
both are one `cameraSetAiModeU`, with `AiWorkModeHuman`/`AiSubModeUpperBody`
and with `AiWorkModeNone`; for TailAir both are one `aiSetAiTrackModeEnabledR`,
enabling `AiTrackHumanNormal` and disabling `AiTrackGroup` when the reported
`ai_type` is 5 and `AiTrackNormal` otherwise; for every other product type
neither command makes a call. -/
theorem cancel_matches_set (sdk : Sdk) (inp : Inputs) (st : State) (sn : String)
    (d : Device) (hsn : vectorAt st.kDevs st.deviceIndex = some sn)
    (hd : sdk.getDevBySn sn = some d) :
    ∃ set cancel : List Event,
      step sdk inp st "8" =
        StepResult.next { kDevs := st.kDevs, dev := some d, deviceIndex := st.deviceIndex }
          ([Event.getDevBySn sn] ++ set ++ [prompt]) ∧
      step sdk inp st "9" =
        StepResult.next { kDevs := st.kDevs, dev := some d, deviceIndex := st.deviceIndex }
          ([Event.getDevBySn sn] ++ cancel ++ [prompt]) ∧
      (d.productType = ObsbotProductType.ObsbotProdTiny ∨
          d.productType = ObsbotProductType.ObsbotProdTiny4k →
        set = [Event.call d.devSn (SdkCall.aiSetTargetSelectR true)] ∧
        cancel = [Event.call d.devSn (SdkCall.aiSetTargetSelectR false)]) ∧
      (d.productType = ObsbotProductType.ObsbotProdTiny2 →
        set = [Event.call d.devSn
          (SdkCall.cameraSetAiModeU DeviceEnum.AiWorkModeHuman
            (some DeviceEnum.AiSubModeUpperBody))] ∧
        cancel = [Event.call d.devSn (SdkCall.cameraSetAiModeU DeviceEnum.AiWorkModeNone none)]) ∧
      (d.productType = ObsbotProductType.ObsbotProdTailAir →
        set = [Event.call d.devSn
          (SdkCall.aiSetAiTrackModeEnabledR DeviceEnum.AiTrackHumanNormal true)] ∧
        cancel = [Event.call d.devSn
          (SdkCall.aiSetAiTrackModeEnabledR
            (if d.ai_type = 5 then DeviceEnum.AiTrackGroup else DeviceEnum.AiTrackNormal)
            false)]) ∧
      (d.productType ≠ ObsbotProductType.ObsbotProdTiny →
        d.productType ≠ ObsbotProductType.ObsbotProdTiny4k →
        d.productType ≠ ObsbotProductType.ObsbotProdTiny2 →
        d.productType ≠ ObsbotProductType.ObsbotProdTailAir →
        set = [] ∧ cancel = []) := by
  have h8 : atoi "8" = 8 := by decide
  have h9 : atoi "9" = 9 := by decide
  refine ⟨case8 d, case9 d, ?_, ?_, ?_, ?_, ?_, ?_⟩
  · rw [step_control sdk inp st "8" sn d (by decide) (by decide) (by decide) (by decide) hsn hd,
      h8]
    rfl
  · rw [step_control sdk inp st "9" sn d (by decide) (by decide) (by decide) (by decide) hsn hd,
      h9]
    rfl
  · intro h
    simp [case8, case9, h]
  · intro h
    simp [case8, case9, h]
  · intro h
    by_cases h5 : d.ai_type = 5 <;> simp [case8, case9, h, h5]
  · intro h1 h2 h3 h4
    simp [case8, case9, h1, h2, h3, h4]

/-- C7 for a TailAir whose reported `ai_type` is 0: command `9` disables
`AiTrackNormal`. -/
theorem cancel_matches_set_witness :
    vectorAt (sampleState ObsbotProductType.ObsbotProdTailAir).kDevs
        (sampleState ObsbotProductType.ObsbotProdTailAir).deviceIndex = some "SN0" ∧
    (sampleSdk ObsbotProductType.ObsbotProdTailAir).getDevBySn "SN0" =
        some (sampleDevice ObsbotProductType.ObsbotProdTailAir) ∧
    ∃ set cancel : List Event,
      step (sampleSdk ObsbotProductType.ObsbotProdTailAir) (sampleInputs 0 ⟨0, 0, 0⟩)
          (sampleState ObsbotProductType.ObsbotProdTailAir) "9" =
        StepResult.next (sampleState ObsbotProductType.ObsbotProdTailAir)
          ([Event.getDevBySn "SN0"] ++ cancel ++ [prompt]) ∧
      set = [Event.call "SN0"
        (SdkCall.aiSetAiTrackModeEnabledR DeviceEnum.AiTrackHumanNormal true)] ∧
      cancel = [Event.call "SN0"
        (SdkCall.aiSetAiTrackModeEnabledR DeviceEnum.AiTrackNormal false)] := by
  refine ⟨rfl, rfl, ?_⟩
  obtain ⟨set, cancel, _, h9, _, _, hTail, _⟩ :=
    cancel_matches_set (sampleSdk ObsbotProductType.ObsbotProdTailAir)
      (sampleInputs 0 ⟨0, 0, 0⟩) (sampleState ObsbotProductType.ObsbotProdTailAir) "SN0"
      (sampleDevice ObsbotProductType.ObsbotProdTailAir) rfl rfl
  exact ⟨set, cancel, h9, (hTail rfl).1, (hTail rfl).2⟩

/-! ## Unknown commands -/

/-- C4, as the code has it: with a device `d` behind the stored index, a pass
on any token other than `h`, `q`, `p`, `s` completes, and it prints the
unknown-command line and makes no call on a device iff the `atoi` of the token
is none of 1 to 19, 21, 22 and 23. -/
theorem unknown_command_iff_unhandled (sdk : Sdk) (inp : Inputs) (st : State)
    (cmd sn : String) (d : Device)
    (hh : cmd ≠ "h") (hq : cmd ≠ "q") (hp : cmd ≠ "p") (hs : cmd ≠ "s")
    (hsn : vectorAt st.kDevs st.deviceIndex = some sn) (hd : sdk.getDevBySn sn = some d) :
    (∃ st1 log, step sdk inp st cmd = StepResult.next st1 log) ∧
    (rejected (step sdk inp st cmd) = true ↔ atoi cmd ∉ handledCodes) := by
  obtain ⟨log, hlog, hiff⟩ := control_rejects_iff sdk inp d (atoi cmd)
  have hstep := step_control sdk inp st cmd sn d hh hq hp hs hsn hd
  rw [hlog] at hstep
  rw [hstep]
  exact ⟨⟨_, _, rfl⟩, (rejected_next_iff _ _ _).trans hiff⟩

/-- C4 at the tokens `20` and `22` on a Tiny: `20` is rejected, `22` is not. -/
theorem unknown_command_iff_unhandled_witness :
    vectorAt (sampleState ObsbotProductType.ObsbotProdTiny).kDevs
        (sampleState ObsbotProductType.ObsbotProdTiny).deviceIndex = some "SN0" ∧
    (sampleSdk ObsbotProductType.ObsbotProdTiny).getDevBySn "SN0" =
        some (sampleDevice ObsbotProductType.ObsbotProdTiny) ∧
    rejected (step (sampleSdk ObsbotProductType.ObsbotProdTiny) (sampleInputs 0 ⟨0, 0, 0⟩)
        (sampleState ObsbotProductType.ObsbotProdTiny) "20") = true ∧
    rejected (step (sampleSdk ObsbotProductType.ObsbotProdTiny) (sampleInputs 0 ⟨0, 0, 0⟩)
        (sampleState ObsbotProductType.ObsbotProdTiny) "22") ≠ true :=
  ⟨rfl, rfl,
   (unknown_command_iff_unhandled (sampleSdk ObsbotProductType.ObsbotProdTiny)
      (sampleInputs 0 ⟨0, 0, 0⟩) (sampleState ObsbotProductType.ObsbotProdTiny) "20" "SN0"
      (sampleDevice ObsbotProductType.ObsbotProdTiny) (by decide) (by decide) (by decide)
      (by decide) rfl rfl).2.2 (by decide),
   fun h => (unknown_command_iff_unhandled (sampleSdk ObsbotProductType.ObsbotProdTiny)
      (sampleInputs 0 ⟨0, 0, 0⟩) (sampleState ObsbotProductType.ObsbotProdTiny) "22" "SN0"
      (sampleDevice ObsbotProductType.ObsbotProdTiny) (by decide) (by decide) (by decide)
      (by decide) rfl rfl).2.1 h (by decide)⟩

/-- C4 as stated fails at the token `22` with one Tiny connected: 22 is not
among the numbers the help lists, yet the pass does not print the
unknown-command line. -/
theorem unknown_command_iff_listed_fails :
    ¬ (rejected (step (sampleSdk ObsbotProductType.ObsbotProdTiny) (sampleInputs 0 ⟨0, 0, 0⟩)
          (sampleState ObsbotProductType.ObsbotProdTiny) "22") = true ↔
        atoi "22" ∉ listedCodes) := by
  decide

/-! ## Command 7 -/

/-- C1 on a Tiny: after the two preset calls, command `7` goes on into the
body of `case 8` and also calls `aiSetTargetSelectR(true)`. -/
theorem command7_runs_into_case8 :
    step (sampleSdk ObsbotProductType.ObsbotProdTiny) (sampleInputs 0 ⟨0, 0, 0⟩)
        (sampleState ObsbotProductType.ObsbotProdTiny) "7" =
      StepResult.next (sampleState ObsbotProductType.ObsbotProdTiny)
        [Event.getDevBySn "SN0",
         Event.call "SN0" (SdkCall.aiAddGimbalPresetR
           { id := 0, name := some "PresetInfoZero", name_len := some 14,
             zoom := some (mkRat 16 10), yaw := some 25, pitch := some 45, roll := some 60,
             roi_cx := some 2, roi_cy := some 2, roi_alpha := some 2 }),
         Event.call "SN0" (SdkCall.aiTrgGimbalPresetR 0),
         Event.call "SN0" (SdkCall.aiSetTargetSelectR true),
         prompt] := by
  decide

/-! ## Command s -/

/-- C2 with one device connected, index 0 stored, and 5 typed after `s`: the
pass prints the invalid-index line, but the stored index is 5 afterwards, and
the next pass on a device command indexes the serial list out of range. -/
theorem select_invalid_index_is_stored :
    step (sampleSdk ObsbotProductType.ObsbotProdTiny) (sampleInputs 5 ⟨0, 0, 0⟩)
        { kDevs := ["SN0"], dev := some (sampleDevice ObsbotProductType.ObsbotProdTiny),
          deviceIndex := 0 } "s" =
      StepResult.next
        { kDevs := ["SN0"], dev := some (sampleDevice ObsbotProductType.ObsbotProdTiny),
          deviceIndex := 5 }
        [Event.getDevBySn "SN0",
         Event.text "Input the index of device:",
         Event.line "Invalid device index, valid range: 0 ~ 0",
         prompt] ∧
    step (sampleSdk ObsbotProductType.ObsbotProdTiny) (sampleInputs 5 ⟨0, 0, 0⟩)
        { kDevs := ["SN0"], dev := some (sampleDevice ObsbotProductType.ObsbotProdTiny),
          deviceIndex := 5 } "1" =
      StepResult.undefined := by
  decide

/-! ## Zone-track init position -/

/-- C9 with a TinySE whose gimbal reports yaw 120 at both reads: command `23`
sets the yaw range to 120..110 and then sends an init position with yaw 120,
which is above the yaw maximum just set. -/
theorem zone_track_init_pos_outside_range :
    step (sampleSdk ObsbotProductType.ObsbotProdTinySE) (sampleInputs 0 ⟨120, 0, 0⟩)
        (sampleState ObsbotProductType.ObsbotProdTinySE) "23" =
      StepResult.next (sampleState ObsbotProductType.ObsbotProdTinySE)
        [Event.getDevBySn "SN0",
         Event.getDevList,
         Event.getDevBySn "SN0",
         Event.call "SN0" (SdkCall.cameraSetLedCtrlU true),
         Event.call "SN0" (SdkCall.aiSetZoneTrackGimbalEnabledR false),
         Event.call "SN0" SdkCall.aiGetGimbalStateR,
         Event.call "SN0" (SdkCall.aiSetLimitedZoneTrackYawMinR 120),
         Event.call "SN0" (SdkCall.aiSetLimitedZoneTrackYawMaxR 110),
         Event.call "SN0" (SdkCall.aiSetLimitedZoneTrackPitchMinR 0),
         Event.call "SN0" (SdkCall.aiSetLimitedZoneTrackPitchMaxR 45),
         Event.call "SN0" SdkCall.aiGetGimbalStateR,
         Event.call "SN0" (SdkCall.aiSetLimitedZoneTrackInitPosR
           { id := 0, yaw := some 120, pitch := some 0, roll := some 0,
             b_pitch := some (-1000) }),
         Event.call "SN0" (SdkCall.aiSetLimitedZoneTrackAutoSelectR true),
         Event.call "SN0" (SdkCall.aiSetZoneTrackGimbalEnabledR true),
         Event.call "SN0" (SdkCall.cameraSetLedCtrlU false),
         prompt] ∧
    ¬ ((120 : ℚ) ≤ 110) := by
  decide

/-! ## The wrapper -/

/-- C8: for every yaw in -110..110 and pitch in -45..45 and every roll,
`moveGimbalWithYaw` makes exactly one SDK call, `aiSetGimbalMotorAngleR` on the
selected device, with yaw, pitch and roll as given. -/
theorem moveGimbalWithYaw_forwards (selected : Device) (yaw pitch roll : ℚ)
    (_hyaw : -110 ≤ yaw ∧ yaw ≤ 110) (_hpitch : -45 ≤ pitch ∧ pitch ≤ 45) :
    moveGimbalWithYaw selected yaw pitch roll =
      [Event.call selected.devSn (SdkCall.aiSetGimbalMotorAngleR yaw pitch roll)] :=
  rfl

/-- C8 at yaw 30, pitch -10, roll 0 on a Tiny2. -/
theorem moveGimbalWithYaw_forwards_witness :
    ((-110 : ℚ) ≤ 30 ∧ (30 : ℚ) ≤ 110) ∧ ((-45 : ℚ) ≤ -10 ∧ (-10 : ℚ) ≤ 45) ∧
    moveGimbalWithYaw (sampleDevice ObsbotProductType.ObsbotProdTiny2) 30 (-10) 0 =
      [Event.call "SN0" (SdkCall.aiSetGimbalMotorAngleR 30 (-10) 0)] :=
  ⟨by decide, by decide,
   moveGimbalWithYaw_forwards (sampleDevice ObsbotProductType.ObsbotProdTiny2) 30 (-10) 0
     (by decide) (by decide)⟩

end ObsbotSample
